import Mathlib

/-!
# Verification of the staff / menu management screens

Shallow embedding of `src/src/components/Staff/StaffLeaveManager.tsx`
(three React components: `StaffLeaveManager`, `AddMenuItemForm`, `Staff`)
and proofs of the spec's claims about it.

Remote tables (`staff`, `staff_leaves`, `menu_items`) are modelled as lists
of rows; a supabase query/mutation is modelled by the pure list
transformation its filter/payload denotes.  Async effects (toasts, inserts,
the third-party image upload) are modelled by returning an explicit record
of the effects an invocation performs.
-/

/-! ## Data model -/

/-- Status of a `staff_leaves` row: TS union `'pending' | 'approved' | 'rejected'`. -/
inductive LeaveStatus where
  | pending
  | approved
  | rejected
deriving DecidableEq, Repr

/-- A row of the `staff_leaves` table (interface `StaffLeave`, lines 18–32;
the joined `staff` display fields are irrelevant to the claims and omitted
from the row, matching the columns the mutations touch). -/
structure LeaveRow where
  id : String
  staff_id : String
  restaurant_id : String
  start_date : String
  end_date : String
  status : LeaveStatus
  reason : String
deriving DecidableEq, Repr

/-- A row of the `staff` table (interface `StaffMember`, lines 830–839). -/
structure StaffRow where
  id : String
  first_name : String
  last_name : String
  position : String
  phone : Option String
  email : Option String
  Shift : Option String
  restaurant_id : String
deriving DecidableEq, Repr

/-! ## Roster Store Adapter: staff list queries

Two list queries appear in the source:
* `StaffLeaveManager`'s staff query (lines 68–76):
  `.from("staff").select(...).eq("restaurant_id", restaurantId)`;
* the `Staff` component's query (lines 862–866):
  `.from("staff").select("*").eq("restaurant_id", ...).order("first_name")`.
Both filter by equality on the resolved `restaurant_id`; the second also
sorts ascending by `first_name`, modelled here by insertion sort. -/

/-- `StaffLeaveManager`'s staff query (lines 68–76): equality filter on
`restaurant_id`. -/
def staffQuery (db : List StaffRow) (restaurantId : String) : List StaffRow :=
  db.filter (fun r => r.restaurant_id == restaurantId)

/-- Insert one row into a list sorted ascending by `first_name`. -/
def insertByFirstName (r : StaffRow) : List StaffRow → List StaffRow
  | [] => [r]
  | x :: xs =>
    if r.first_name ≤ x.first_name then r :: x :: xs else x :: insertByFirstName r xs

/-- Ascending sort by `first_name`: `.order("first_name")` (line 866). -/
def sortByFirstName : List StaffRow → List StaffRow
  | [] => []
  | x :: xs => insertByFirstName x (sortByFirstName xs)

/-- The `Staff` component's list query (lines 862–866): equality filter on
the resolved `restaurant_id`, then order by `first_name`. -/
def staffListQuery (db : List StaffRow) (restaurantId : String) : List StaffRow :=
  sortByFirstName (db.filter (fun r => r.restaurant_id == restaurantId))

theorem mem_insertByFirstName (r x : StaffRow) (l : List StaffRow) :
    x ∈ insertByFirstName r l ↔ x = r ∨ x ∈ l := by
  induction l with
  | nil => simp [insertByFirstName]
  | cons a l ih =>
    simp only [insertByFirstName]
    by_cases h : r.first_name ≤ a.first_name
    · simp only [if_pos h, List.mem_cons]
    · simp only [if_neg h, List.mem_cons, ih]
      tauto

theorem mem_sortByFirstName (x : StaffRow) (l : List StaffRow) :
    x ∈ sortByFirstName l ↔ x ∈ l := by
  induction l with
  | nil => simp [sortByFirstName]
  | cons a l ih =>
    simp [sortByFirstName, mem_insertByFirstName, ih]

/-! ## Leave Store Adapter -/

/-- The component state feeding `handleAddLeave`: `selectedStaffId`,
`startDate`, `endDate`, `reason` (lines 43–46).  In the source these are
strings, initialised empty; JavaScript truthiness of a string is
non-emptiness. -/
structure LeaveForm where
  selectedStaffId : String
  startDate : String
  endDate : String
  reason : String
deriving DecidableEq, Repr

/-- The record handed to `.from("staff_leaves").insert({...})`
(lines 118–127), field for field. -/
structure LeaveInsert where
  staff_id : String
  restaurant_id : String
  start_date : String
  end_date : String
  reason : String
  status : LeaveStatus
deriving DecidableEq, Repr

/-- `handleAddLeave` (lines 105–151), up to the point the insert is issued:
returns the inserted record, or `none` when the guard
`!selectedStaffId || !startDate || !endDate || !restaurantId` (line 108)
bails out with the "Missing information" toast and no insert.
`restaurantId` is the tenant query's data, `none` while unresolved; an
empty string is also falsy in JavaScript. -/
def handleAddLeave (form : LeaveForm) (restaurantId : Option String) :
    Option LeaveInsert :=
  match restaurantId with
  | none => none
  | some rid =>
    if form.selectedStaffId = "" ∨ form.startDate = "" ∨ form.endDate = "" ∨ rid = "" then
      none
    else
      some
        { staff_id := form.selectedStaffId
          restaurant_id := rid
          start_date := form.startDate
          end_date := form.endDate
          reason := form.reason
          status := .pending }

/-- Target of a leave status transition: the TS parameter type
`status: 'approved' | 'rejected'` of `updateLeaveStatus` (line 153). -/
inductive TargetStatus where
  | approved
  | rejected
deriving DecidableEq, Repr

/-- Inclusion of the transition targets into `LeaveStatus`. -/
def TargetStatus.toStatus : TargetStatus → LeaveStatus
  | .approved => .approved
  | .rejected => .rejected

/-- `updateLeaveStatus` (lines 153–158):
`.from("staff_leaves").update({ status }).eq("id", leaveId)` — the update
payload is `{ status }` and the row predicate is equality on `id` alone. -/
def updateLeaveStatus (db : List LeaveRow) (leaveId : String) (s : TargetStatus) :
    List LeaveRow :=
  db.map (fun r => if r.id == leaveId then { r with status := s.toStatus } else r)

/-- Whether the approve/reject action buttons are rendered for a leave row:
the guard `leave.status === 'pending' && (...)` (line 321). -/
def showLeaveActions (leave : LeaveRow) : Bool :=
  leave.status == .pending

/-! ## Roster mutations -/

/-- `staffData` built by the `Staff` component's `handleSubmit`
(lines 876–883): exactly the six fields read from the form —
`first_name`, `last_name`, `position`, `phone`, `email`, `Shift`.
Neither `id` nor `restaurant_id` is present. -/
structure StaffUpdatePayload where
  first_name : String
  last_name : String
  position : String
  phone : String
  email : String
  Shift : String
deriving DecidableEq, Repr

/-- Effect on one row of `.update({ ...staffData })` (line 902): every field
named in the payload is overwritten, every other column keeps its value. -/
def applyStaffUpdate (r : StaffRow) (p : StaffUpdatePayload) : StaffRow :=
  { r with
    first_name := p.first_name
    last_name := p.last_name
    position := p.position
    phone := some p.phone
    email := some p.email
    Shift := some p.Shift }

/-- The edit branch of `handleSubmit` (lines 899–906):
`.from("staff").update({ ...staffData }).eq("id", editingStaff.id)` —
rows matching the edited record's `id` get the payload applied. -/
def handleSubmitEdit (db : List StaffRow) (editingId : String)
    (p : StaffUpdatePayload) : List StaffRow :=
  db.map (fun r => if r.id == editingId then applyStaffUpdate r p else r)

/-- `handleDelete` (lines 929–932):
`.from("staff").delete().eq("id", id)` — the delete predicate is equality
on `id` alone. -/
def handleDelete (db : List StaffRow) (id : String) : List StaffRow :=
  db.filter (fun r => r.id != id)

/-! ## Menu Item Submission Flow -/

/-- The properties of a browser `File` that `handleFileChange` inspects:
`file.size` (bytes) and `file.type` (MIME string). -/
structure WebFile where
  name : String
  size : Nat
  mimeType : String
deriving DecidableEq, Repr

/-- Effects of one `handleFileChange` invocation (lines 427–453).  The
handler performs no network request on any path, recorded by
`networkCalls` staying `0`. -/
structure FileChangeEffect where
  errorToast : Option String
  newSelectedFile : Option WebFile
  networkCalls : Nat
deriving DecidableEq, Repr

/-- Character-list core of `String.startsWith`. -/
def charsStartWith : List Char → List Char → Bool
  | [], _ => true
  | _ :: _, [] => false
  | p :: ps, c :: cs => p == c && charsStartWith ps cs

/-- `s.startsWith(pat)`: the MIME-type check `file.type.startsWith("image/")`
(line 442), implemented structurally on the character lists. -/
def stringStartsWith (s pat : String) : Bool :=
  charsStartWith pat.toList s.toList

/-- `handleFileChange` (lines 427–453) for a change event carrying one
file: rejects with a destructive toast when `file.size > 5 * 1024 * 1024`
(checked first) or when `file.type` does not start with `"image/"`;
otherwise `setSelectedFile(file)`. -/
def handleFileChange (file : WebFile) : FileChangeEffect :=
  if file.size > 5 * 1024 * 1024 then
    { errorToast := some "File too large", newSelectedFile := none, networkCalls := 0 }
  else if stringStartsWith file.mimeType "image/" = false then
    { errorToast := some "Invalid file type", newSelectedFile := none, networkCalls := 0 }
  else
    { errorToast := none, newSelectedFile := some file, networkCalls := 0 }

/-- Environment of one `uploadImage` attempt: which of the async steps
fails, or success with the hosted URL.  The constructors correspond, in
source order, to: the `FileReader` rejecting (lines 465–475), `fetch`
itself throwing, `!response.ok` (line 498), `response.json()` throwing
(line 502), and `data.status_code !== 200 || !data.image?.url`
(lines 507, 515). -/
inductive UploadOutcome where
  | readError
  | fetchNetworkError
  | httpError (status : Nat)
  | jsonError
  | invalidResponse
  | success (url : String)
deriving DecidableEq, Repr

/-- Effects of one `uploadImage` invocation (lines 455–529).
`progressTrace` lists the values passed to `setUploadProgress` inside the
`try` block, in order; `finalProgress` / `finalUploading` are the state
after the `finally` block (entry state is `0` / `false`: the component
initialises both so and the upload button is not offered while uploading).
`returnedUrl` is the function's return value (`null` ↦ `none`),
`formImageUrlSet` records `form.setValue('image_url', …)` (line 509),
`errorToast` the destructive "Upload failed" toast (lines 519–523),
`fetchCalled` whether the HTTP request to the image host was issued. -/
structure UploadEffect where
  progressTrace : List Nat
  finalProgress : Nat
  finalUploading : Bool
  returnedUrl : Option String
  formImageUrlSet : Option String
  errorToast : Bool
  fetchCalled : Bool
deriving DecidableEq, Repr

/-- `uploadImage` (lines 455–529).  With no selected file it returns `null`
at once (line 456), before the `try`/`finally`, touching nothing.
Otherwise progress checkpoints 10 (line 460), 30 (line 480), 50
(line 488), 80 (line 496), 100 (line 505) are set until the step given by
`outcome` fails; any failure is caught, toasted and turned into a `null`
return; the `finally` block resets progress to 0 and clears the uploading
flag on every path through the `try`. -/
def uploadImage (selectedFile : Option WebFile) (outcome : UploadOutcome) :
    UploadEffect :=
  match selectedFile with
  | none =>
    { progressTrace := [], finalProgress := 0, finalUploading := false
      returnedUrl := none, formImageUrlSet := none, errorToast := false
      fetchCalled := false }
  | some _ =>
    match outcome with
    | .readError =>
      { progressTrace := [10], finalProgress := 0, finalUploading := false
        returnedUrl := none, formImageUrlSet := none, errorToast := true
        fetchCalled := false }
    | .fetchNetworkError =>
      { progressTrace := [10, 30, 50], finalProgress := 0, finalUploading := false
        returnedUrl := none, formImageUrlSet := none, errorToast := true
        fetchCalled := true }
    | .httpError _ =>
      { progressTrace := [10, 30, 50, 80], finalProgress := 0, finalUploading := false
        returnedUrl := none, formImageUrlSet := none, errorToast := true
        fetchCalled := true }
    | .jsonError =>
      { progressTrace := [10, 30, 50, 80], finalProgress := 0, finalUploading := false
        returnedUrl := none, formImageUrlSet := none, errorToast := true
        fetchCalled := true }
    | .invalidResponse =>
      { progressTrace := [10, 30, 50, 80, 100], finalProgress := 0, finalUploading := false
        returnedUrl := none, formImageUrlSet := none, errorToast := true
        fetchCalled := true }
    | .success url =>
      { progressTrace := [10, 30, 50, 80, 100], finalProgress := 0, finalUploading := false
        returnedUrl := some url, formImageUrlSet := some url, errorToast := false
        fetchCalled := true }

/-- The react-hook-form data handed to `onSubmit` (type `FormData`,
lines 379–385).  `price` is kept as the submitted text; the source applies
`parseFloat` to it (line 568), a numeric conversion none of the claims
depend on. -/
structure MenuFormData where
  name : String
  description : String
  price : String
  category : String
  image_url : String
deriving DecidableEq, Repr

/-- The record handed to `.from("menu_items").insert([...])`
(lines 564–574).  `price_text` carries the text `parseFloat` is applied
to. -/
structure MenuItemInsert where
  name : String
  description : String
  price_text : String
  category : String
  image_url : String
  restaurant_id : String
  is_available : Bool
deriving DecidableEq, Repr

/-- Effects of one `onSubmit` invocation (lines 546–594). `upload` is the
inline `uploadImage` call's effect when one was made, `insert` the
`menu_items` record when the insert was issued, `errorToast` whether a
destructive toast was surfaced on this path (by `onSubmit`'s own catch or
by the inline upload). -/
structure SubmitEffect where
  upload : Option UploadEffect
  insert : Option MenuItemInsert
  errorToast : Bool
deriving DecidableEq, Repr

/-- `onSubmit` (lines 546–594), with the remote insert assumed to succeed
(a backend insert error only changes the trailing toast, not which record
was sent).  If `!userProfile?.restaurant_id` (line 551) it throws
`'No restaurant assigned to user'`, caught by its own handler: no upload,
no insert, error toast.  Otherwise, when a file is selected and
`uploadedImageUrl` is empty (falsy, line 557) the upload runs inline and
`imageUrl` is replaced only when it returns a URL (lines 558–561); the
insert then uses `imageUrl` (line 570). -/
def onSubmit (data : MenuFormData) (selectedFile : Option WebFile)
    (uploadedImageUrl : String) (restaurantId : Option String)
    (outcome : UploadOutcome) : SubmitEffect :=
  match restaurantId with
  | none => { upload := none, insert := none, errorToast := true }
  | some rid =>
    if rid = "" then
      { upload := none, insert := none, errorToast := true }
    else
      let inlineUpload : Option UploadEffect :=
        if selectedFile.isSome ∧ uploadedImageUrl = "" then
          some (uploadImage selectedFile outcome)
        else
          none
      let imageUrl : String :=
        match inlineUpload with
        | some u =>
          match u.returnedUrl with
          | some url => url
          | none => data.image_url
        | none => data.image_url
      { upload := inlineUpload
        insert := some
          { name := data.name
            description := data.description
            price_text := data.price
            category := data.category
            image_url := imageUrl
            restaurant_id := rid
            is_available := true }
        errorToast := (inlineUpload.map (fun u => u.errorToast)).getD false }

/-! ## Leave duration badge (calendar arithmetic)

`new Date("YYYY-MM-DD")` parses a date-only string to midnight UTC of that
civil date, and for two such midnights date-fns' `differenceInDays` is
exactly the difference of their epoch-day numbers.  The civil-date to
epoch-day conversion is the standard proleptic-Gregorian formula. -/

/-- Epoch-day number (days since 1970-01-01) of the civil date y-m-d,
proleptic Gregorian. -/
def daysFromCivil (y : Int) (m d : Nat) : Int :=
  let y2 : Int := if m ≤ 2 then y - 1 else y
  let era : Int := (if 0 ≤ y2 then y2 else y2 - 399) / 400
  let yoe : Int := y2 - era * 400
  let mp : Int := ((m : Int) + 9) % 12
  let doy : Int := (153 * mp + 2) / 5 + (d : Int) - 1
  let doe : Int := yoe * 365 + yoe / 4 - yoe / 100 + doy
  era * 146097 + doe - 719468

/-- Split a character list on `-`. -/
def splitDash : List Char → List (List Char)
  | [] => [[]]
  | c :: cs =>
    if c = '-' then
      [] :: splitDash cs
    else
      match splitDash cs with
      | [] => [[c]]
      | g :: gs => (c :: g) :: gs

/-- Read a nonempty list of decimal digits as a number. -/
def digitsToNat : List Char → Option Nat
  | [] => none
  | cs =>
    cs.foldl
      (fun acc c =>
        match acc with
        | none => none
        | some n => if c.isDigit then some (n * 10 + (c.toNat - 48)) else none)
      (some 0)

/-- Parse a `"YYYY-MM-DD"` date input value (the form of `start_date` /
`end_date`, produced by `<input type="date">`) to its epoch-day number. -/
def parseDate (s : String) : Option Int :=
  match splitDash s.toList with
  | [y, m, d] =>
    match digitsToNat y, digitsToNat m, digitsToNat d with
    | some yn, some mn, some dn =>
      if 1 ≤ mn ∧ mn ≤ 12 ∧ 1 ≤ dn ∧ dn ≤ 31 then
        some (daysFromCivil (yn : Int) mn dn)
      else
        none
    | _, _, _ => none
  | _ => none

/-- date-fns `differenceInDays(dateLeft, dateRight)` on two date-only
values: the whole-day difference, here exactly the epoch-day difference. -/
def differenceInDays (dateLeft dateRight : Int) : Int :=
  dateLeft - dateRight

/-- The duration badge of a leave row (line 308):
`differenceInDays(new Date(leave.end_date), new Date(leave.start_date)) + 1`
days; `none` when either date string does not parse. -/
def leaveDurationDays (start_date end_date : String) : Option Int :=
  match parseDate start_date, parseDate end_date with
  | some s, some e => some (differenceInDays e s + 1)
  | _, _ => none

/-- Spec-side formula, from the spec's words: "inclusive day count =
(end date − start date) + 1", on epoch-day numbers. -/
def inclusiveDayCountSpec (startDay endDay : Int) : Int :=
  (endDay - startDay) + 1

/-! ## Claims -/

/-- C1: every leave-request creation that reaches the insert inserts a
record with `status = 'pending'`, regardless of the form input (staff,
dates, reason) and of the resolved restaurant. -/
theorem handleAddLeave_status_pending (form : LeaveForm)
    (restaurantId : Option String) (ins : LeaveInsert)
    (h : handleAddLeave form restaurantId = some ins) :
    ins.status = LeaveStatus.pending := by
  unfold handleAddLeave at h
  split at h
  · exact absurd h (by simp)
  · split at h
    · exact absurd h (by simp)
    · cases h
      rfl

theorem handleAddLeave_status_pending_witness :
    handleAddLeave
        { selectedStaffId := "staff-7", startDate := "2024-01-01",
          endDate := "2024-01-02", reason := "flu" } (some "rest-1") =
      some
        { staff_id := "staff-7", restaurant_id := "rest-1",
          start_date := "2024-01-01", end_date := "2024-01-02",
          reason := "flu", status := LeaveStatus.pending } ∧
    LeaveInsert.status
        { staff_id := "staff-7", restaurant_id := "rest-1",
          start_date := "2024-01-01", end_date := "2024-01-02",
          reason := "flu", status := LeaveStatus.pending } =
      LeaveStatus.pending :=
  ⟨by decide,
   handleAddLeave_status_pending
     { selectedStaffId := "staff-7", startDate := "2024-01-01",
       endDate := "2024-01-02", reason := "flu" }
     (some "rest-1")
     { staff_id := "staff-7", restaurant_id := "rest-1",
       start_date := "2024-01-01", end_date := "2024-01-02",
       reason := "flu", status := LeaveStatus.pending }
     (by decide)⟩

/-- C2: every staff record returned by either staff list query has
`restaurant_id` equal to the resolved tenant identifier the query was
issued with. -/
theorem staff_queries_restaurant_scoped (db : List StaffRow) (tid : String)
    (r : StaffRow) :
    (r ∈ staffQuery db tid → r.restaurant_id = tid) ∧
    (r ∈ staffListQuery db tid → r.restaurant_id = tid) := by
  constructor
  · intro h
    have := (List.mem_filter.mp h).2
    simpa using this
  · intro h
    rw [staffListQuery, mem_sortByFirstName] at h
    have := (List.mem_filter.mp h).2
    simpa using this

theorem staff_queries_restaurant_scoped_witness :
    ({ id := "s1", first_name := "Ann", last_name := "A", position := "chef",
       phone := none, email := none, Shift := none,
       restaurant_id := "rest-1" } : StaffRow) ∈
      staffQuery
        [{ id := "s1", first_name := "Ann", last_name := "A", position := "chef",
           phone := none, email := none, Shift := none, restaurant_id := "rest-1" },
         { id := "s2", first_name := "Bob", last_name := "B", position := "host",
           phone := none, email := none, Shift := none, restaurant_id := "rest-2" }]
        "rest-1" ∧
    StaffRow.restaurant_id
        { id := "s1", first_name := "Ann", last_name := "A", position := "chef",
          phone := none, email := none, Shift := none, restaurant_id := "rest-1" } =
      "rest-1" :=
  ⟨by decide,
   (staff_queries_restaurant_scoped
       [{ id := "s1", first_name := "Ann", last_name := "A", position := "chef",
          phone := none, email := none, Shift := none, restaurant_id := "rest-1" },
        { id := "s2", first_name := "Bob", last_name := "B", position := "host",
          phone := none, email := none, Shift := none, restaurant_id := "rest-2" }]
       "rest-1"
       { id := "s1", first_name := "Ann", last_name := "A", position := "chef",
         phone := none, email := none, Shift := none,
         restaurant_id := "rest-1" }).1 (by decide)⟩

/-- C4: `handleFileChange` rejects a file larger than 5 MiB or with a
non-`image/` MIME type with an error toast, leaving `selectedFile` unset;
it accepts an image file of at most 5 MiB as the selected file; and it
makes no network call on any path. -/
theorem handleFileChange_validation (file : WebFile) :
    (file.size > 5 * 1024 * 1024 ∨ stringStartsWith file.mimeType "image/" = false →
      (handleFileChange file).errorToast.isSome = true ∧
      (handleFileChange file).newSelectedFile = none) ∧
    (file.size ≤ 5 * 1024 * 1024 → stringStartsWith file.mimeType "image/" = true →
      (handleFileChange file).newSelectedFile = some file ∧
      (handleFileChange file).errorToast = none) ∧
    (handleFileChange file).networkCalls = 0 := by
  unfold handleFileChange
  by_cases hs : file.size > 5 * 1024 * 1024
  · rw [if_pos hs]
    refine ⟨fun _ => ⟨rfl, rfl⟩, fun hle _ => absurd hs (not_lt.mpr hle), rfl⟩
  · rw [if_neg hs]
    by_cases ht : stringStartsWith file.mimeType "image/" = true
    · have hnf : ¬ (stringStartsWith file.mimeType "image/" = false) := by
        simp [ht]
      rw [if_neg hnf]
      refine ⟨fun hor => ?_, fun _ _ => ⟨rfl, rfl⟩, rfl⟩
      rcases hor with hor | hor
      · exact absurd hor hs
      · exact absurd hor hnf
    · have hf : stringStartsWith file.mimeType "image/" = false := by
        simpa using ht
      rw [if_pos hf]
      refine ⟨fun _ => ⟨rfl, rfl⟩, fun _ hT => absurd hT ht, rfl⟩

theorem handleFileChange_validation_witness :
    ((handleFileChange { name := "huge.png", size := 5242881, mimeType := "image/png" }).errorToast.isSome = true ∧
     (handleFileChange { name := "huge.png", size := 5242881, mimeType := "image/png" }).newSelectedFile = none) ∧
    ((handleFileChange { name := "notes.pdf", size := 100, mimeType := "application/pdf" }).errorToast.isSome = true ∧
     (handleFileChange { name := "notes.pdf", size := 100, mimeType := "application/pdf" }).newSelectedFile = none) ∧
    ((handleFileChange { name := "ok.png", size := 1024, mimeType := "image/png" }).newSelectedFile =
        some { name := "ok.png", size := 1024, mimeType := "image/png" } ∧
     (handleFileChange { name := "ok.png", size := 1024, mimeType := "image/png" }).errorToast = none) :=
  ⟨(handleFileChange_validation
      { name := "huge.png", size := 5242881, mimeType := "image/png" }).1 (Or.inl (by decide)),
   (handleFileChange_validation
      { name := "notes.pdf", size := 100, mimeType := "application/pdf" }).1 (Or.inr (by decide)),
   ((handleFileChange_validation
      { name := "ok.png", size := 1024, mimeType := "image/png" }).2).1 (by decide) (by decide)⟩

/-- C5: when the resolved restaurant identifier is absent (`none`, or the
falsy empty string), `onSubmit` fails fast: no inline upload is attempted,
no `menu_items` insert is issued, and an error toast is surfaced. -/
theorem onSubmit_missing_restaurant_fails_fast (data : MenuFormData)
    (selectedFile : Option WebFile) (uploadedImageUrl : String)
    (restaurantId : Option String) (outcome : UploadOutcome)
    (h : restaurantId = none ∨ restaurantId = some "") :
    onSubmit data selectedFile uploadedImageUrl restaurantId outcome =
      { upload := none, insert := none, errorToast := true } := by
  rcases h with h | h <;> subst h <;> rfl

theorem onSubmit_missing_restaurant_fails_fast_witness :
    onSubmit
        { name := "Dal", description := "lentils", price := "12.50",
          category := "Main Course", image_url := "" }
        (some { name := "ok.png", size := 1024, mimeType := "image/png" })
        "" none (UploadOutcome.success "http://img/x.png") =
      { upload := none, insert := none, errorToast := true } :=
  onSubmit_missing_restaurant_fails_fast
    { name := "Dal", description := "lentils", price := "12.50",
      category := "Main Course", image_url := "" }
    (some { name := "ok.png", size := 1024, mimeType := "image/png" })
    "" none (UploadOutcome.success "http://img/x.png") (Or.inl rfl)

/-- C3: when a file is selected, no earlier upload succeeded
(`uploadedImageUrl` empty) and the inline upload attempt fails in any way,
the `menu_items` insert still issued by `onSubmit` carries the form's prior
`image_url` value — not a URL from the failed attempt — and an error toast
is surfaced. -/
theorem onSubmit_upload_failure_keeps_prior_url (data : MenuFormData)
    (file : WebFile) (rid : String) (outcome : UploadOutcome)
    (hr : rid ≠ "")
    (hfail : ∀ url, outcome ≠ UploadOutcome.success url) :
    (onSubmit data (some file) "" (some rid) outcome).insert =
      some
        { name := data.name, description := data.description,
          price_text := data.price, category := data.category,
          image_url := data.image_url, restaurant_id := rid,
          is_available := true } ∧
    (onSubmit data (some file) "" (some rid) outcome).errorToast = true := by
  cases outcome with
  | success url => exact absurd rfl (hfail url)
  | readError => exact ⟨by simp [onSubmit, uploadImage, hr], by simp [onSubmit, uploadImage, hr]⟩
  | fetchNetworkError => exact ⟨by simp [onSubmit, uploadImage, hr], by simp [onSubmit, uploadImage, hr]⟩
  | httpError status => exact ⟨by simp [onSubmit, uploadImage, hr], by simp [onSubmit, uploadImage, hr]⟩
  | jsonError => exact ⟨by simp [onSubmit, uploadImage, hr], by simp [onSubmit, uploadImage, hr]⟩
  | invalidResponse => exact ⟨by simp [onSubmit, uploadImage, hr], by simp [onSubmit, uploadImage, hr]⟩

theorem onSubmit_upload_failure_keeps_prior_url_witness :
    (onSubmit
        { name := "Dal", description := "lentils", price := "12.50",
          category := "Main Course", image_url := "" }
        (some { name := "ok.png", size := 1024, mimeType := "image/png" })
        "" (some "rest-1") (UploadOutcome.httpError 500)).insert =
      some
        { name := "Dal", description := "lentils", price_text := "12.50",
          category := "Main Course", image_url := "",
          restaurant_id := "rest-1", is_available := true } ∧
    (onSubmit
        { name := "Dal", description := "lentils", price := "12.50",
          category := "Main Course", image_url := "" }
        (some { name := "ok.png", size := 1024, mimeType := "image/png" })
        "" (some "rest-1") (UploadOutcome.httpError 500)).errorToast = true :=
  onSubmit_upload_failure_keeps_prior_url
    { name := "Dal", description := "lentils", price := "12.50",
      category := "Main Course", image_url := "" }
    { name := "ok.png", size := 1024, mimeType := "image/png" }
    "rest-1" (UploadOutcome.httpError 500)
    (by decide)
    (fun url h => UploadOutcome.noConfusion h)

/-- C6: the day count displayed for a leave equals
`(end_date − start_date) + 1` in whole days, for any pair of parseable
date strings; e.g. start 2024-01-01 and end 2024-01-03 display 3 days. -/
theorem leave_duration_inclusive (s e : String) (sd ed : Int)
    (hs : parseDate s = some sd) (he : parseDate e = some ed) :
    leaveDurationDays s e = some (inclusiveDayCountSpec sd ed) := by
  unfold leaveDurationDays
  rw [hs, he]
  rfl

theorem leave_duration_inclusive_witness :
    parseDate "2024-01-01" = some 19723 ∧
    parseDate "2024-01-03" = some 19725 ∧
    leaveDurationDays "2024-01-01" "2024-01-03" =
      some (inclusiveDayCountSpec 19723 19725) ∧
    inclusiveDayCountSpec 19723 19725 = 3 :=
  ⟨by decide, by decide,
   leave_duration_inclusive "2024-01-01" "2024-01-03" 19723 19725
     (by decide) (by decide),
   by decide⟩

/-- C7: an upload attempt (a selected file is present) drives the
progress indicator through a prefix of the fixed checkpoints
10, 30, 50, 80, 100 in that order — the whole sequence exactly when the
attempt succeeds — independent of the file itself (so the value reflects
no real transfer progress), and every attempt ends with progress reset
to 0 and the uploading flag cleared. -/
theorem uploadImage_progress_checkpoints (file : WebFile)
    (outcome : UploadOutcome) :
    (∃ n, (uploadImage (some file) outcome).progressTrace =
      List.take n [10, 30, 50, 80, 100]) ∧
    (∀ url, outcome = UploadOutcome.success url →
      (uploadImage (some file) outcome).progressTrace = [10, 30, 50, 80, 100]) ∧
    (∀ g : WebFile, (uploadImage (some g) outcome).progressTrace =
      (uploadImage (some file) outcome).progressTrace) ∧
    (uploadImage (some file) outcome).finalProgress = 0 ∧
    (uploadImage (some file) outcome).finalUploading = false := by
  cases outcome with
  | readError =>
    exact ⟨⟨1, rfl⟩, fun url h => UploadOutcome.noConfusion h, fun g => rfl, rfl, rfl⟩
  | fetchNetworkError =>
    exact ⟨⟨3, rfl⟩, fun url h => UploadOutcome.noConfusion h, fun g => rfl, rfl, rfl⟩
  | httpError status =>
    exact ⟨⟨4, rfl⟩, fun url h => UploadOutcome.noConfusion h, fun g => rfl, rfl, rfl⟩
  | jsonError =>
    exact ⟨⟨4, rfl⟩, fun url h => UploadOutcome.noConfusion h, fun g => rfl, rfl, rfl⟩
  | invalidResponse =>
    exact ⟨⟨5, rfl⟩, fun url h => UploadOutcome.noConfusion h, fun g => rfl, rfl, rfl⟩
  | success url =>
    exact ⟨⟨5, rfl⟩, fun _ _ => rfl, fun g => rfl, rfl, rfl⟩

theorem uploadImage_progress_checkpoints_witness :
    (uploadImage (some { name := "ok.png", size := 1024, mimeType := "image/png" })
        (UploadOutcome.success "http://img/x.png")).progressTrace =
      [10, 30, 50, 80, 100] ∧
    (uploadImage (some { name := "ok.png", size := 1024, mimeType := "image/png" })
        (UploadOutcome.success "http://img/x.png")).finalProgress = 0 ∧
    (uploadImage (some { name := "ok.png", size := 1024, mimeType := "image/png" })
        (UploadOutcome.success "http://img/x.png")).finalUploading = false :=
  ⟨(uploadImage_progress_checkpoints
      { name := "ok.png", size := 1024, mimeType := "image/png" }
      (UploadOutcome.success "http://img/x.png")).2.1 "http://img/x.png" rfl,
   (uploadImage_progress_checkpoints
      { name := "ok.png", size := 1024, mimeType := "image/png" }
      (UploadOutcome.success "http://img/x.png")).2.2.2.1,
   (uploadImage_progress_checkpoints
      { name := "ok.png", size := 1024, mimeType := "image/png" }
      (UploadOutcome.success "http://img/x.png")).2.2.2.2⟩

/-- C8: the approve/reject controls are rendered for a leave row exactly
when its status is `'pending'`, and after `updateLeaveStatus` transitions a
row to `'approved'` or `'rejected'` the controls are no longer shown for
that row. -/
theorem leave_actions_iff_pending (l : LeaveRow) :
    (showLeaveActions l = true ↔ l.status = LeaveStatus.pending) ∧
    (∀ (db : List LeaveRow) (leaveId : String) (s : TargetStatus)
       (l2 : LeaveRow), l2 ∈ updateLeaveStatus db leaveId s → l2.id = leaveId →
       showLeaveActions l2 = false) := by
  constructor
  · simp [showLeaveActions]
  · intro db leaveId s l2 hmem hid
    rcases List.mem_map.mp hmem with ⟨r, _, hr⟩
    by_cases h : r.id = leaveId
    · have : l2 = { r with status := s.toStatus } := by
        rw [← hr]
        simp [h]
      rw [this]
      cases s <;> simp [showLeaveActions, TargetStatus.toStatus]
    · have : l2 = r := by
        rw [← hr]
        simp [h]
      rw [this] at hid
      exact absurd hid h

theorem leave_actions_iff_pending_witness :
    showLeaveActions
        { id := "l1", staff_id := "s1", restaurant_id := "rest-1",
          start_date := "2024-01-01", end_date := "2024-01-03",
          status := LeaveStatus.pending, reason := "flu" } = true ∧
    showLeaveActions
        { id := "l1", staff_id := "s1", restaurant_id := "rest-1",
          start_date := "2024-01-01", end_date := "2024-01-03",
          status := LeaveStatus.approved, reason := "flu" } = false :=
  ⟨(leave_actions_iff_pending
      { id := "l1", staff_id := "s1", restaurant_id := "rest-1",
        start_date := "2024-01-01", end_date := "2024-01-03",
        status := LeaveStatus.pending, reason := "flu" }).1.mpr rfl,
   (leave_actions_iff_pending
      { id := "l1", staff_id := "s1", restaurant_id := "rest-1",
        start_date := "2024-01-01", end_date := "2024-01-03",
        status := LeaveStatus.pending, reason := "flu" }).2
     [{ id := "l1", staff_id := "s1", restaurant_id := "rest-1",
        start_date := "2024-01-01", end_date := "2024-01-03",
        status := LeaveStatus.pending, reason := "flu" }]
     "l1" TargetStatus.approved
     { id := "l1", staff_id := "s1", restaurant_id := "rest-1",
       start_date := "2024-01-01", end_date := "2024-01-03",
       status := LeaveStatus.approved, reason := "flu" }
     (by decide) rfl⟩

/-- C9: editing an existing staff member updates exactly the payload
fields (`first_name`, `last_name`, `position`, `phone`, `email`,
`Shift`); every row's `id` and `restaurant_id` are unchanged by the edit
operation. -/
theorem handleSubmitEdit_preserves_id_and_tenant (db : List StaffRow)
    (editingId : String) (p : StaffUpdatePayload) :
    (handleSubmitEdit db editingId p).map (fun r => (r.id, r.restaurant_id)) =
      db.map (fun r => (r.id, r.restaurant_id)) := by
  unfold handleSubmitEdit
  rw [List.map_map]
  apply List.map_congr_left
  intro r _
  by_cases h : r.id = editingId
  · simp [h, applyStaffUpdate]
  · simp [h]

/-- C10: `updateLeaveStatus` and `handleDelete` select their target rows
by `id` equality alone: a matching row is transitioned / removed whatever
its `restaurant_id`, and every non-matching row is untouched — no tenant
filter is applied by these mutations. -/
theorem mutations_filter_by_id_only (ldb : List LeaveRow)
    (sdb : List StaffRow) (leaveId staffId : String) (s : TargetStatus) :
    (∀ r ∈ ldb, r.id = leaveId →
      { r with status := s.toStatus } ∈ updateLeaveStatus ldb leaveId s) ∧
    (∀ r ∈ ldb, r.id ≠ leaveId → r ∈ updateLeaveStatus ldb leaveId s) ∧
    (∀ r ∈ sdb, r.id = staffId → r ∉ handleDelete sdb staffId) ∧
    (∀ r ∈ sdb, r.id ≠ staffId → r ∈ handleDelete sdb staffId) := by
  refine ⟨?_, ?_, ?_, ?_⟩
  · intro r hmem hid
    refine List.mem_map.mpr ⟨r, hmem, ?_⟩
    simp [hid]
  · intro r hmem hid
    refine List.mem_map.mpr ⟨r, hmem, ?_⟩
    simp [hid]
  · intro r _ hid hin
    have := (List.mem_filter.mp hin).2
    simp [hid] at this
  · intro r hmem hid
    refine List.mem_filter.mpr ⟨hmem, ?_⟩
    simpa using hid

theorem mutations_filter_by_id_only_witness :
    ({ id := "l1", staff_id := "s1", restaurant_id := "other-tenant",
       start_date := "2024-01-01", end_date := "2024-01-03",
       status := LeaveStatus.approved, reason := "flu" } : LeaveRow) ∈
      updateLeaveStatus
        [{ id := "l1", staff_id := "s1", restaurant_id := "other-tenant",
           start_date := "2024-01-01", end_date := "2024-01-03",
           status := LeaveStatus.pending, reason := "flu" }]
        "l1" TargetStatus.approved ∧
    ({ id := "s9", first_name := "Eve", last_name := "E", position := "chef",
       phone := none, email := none, Shift := none,
       restaurant_id := "other-tenant" } : StaffRow) ∉
      handleDelete
        [{ id := "s9", first_name := "Eve", last_name := "E", position := "chef",
           phone := none, email := none, Shift := none,
           restaurant_id := "other-tenant" }]
        "s9" :=
  ⟨(mutations_filter_by_id_only
      [{ id := "l1", staff_id := "s1", restaurant_id := "other-tenant",
         start_date := "2024-01-01", end_date := "2024-01-03",
         status := LeaveStatus.pending, reason := "flu" }]
      [{ id := "s9", first_name := "Eve", last_name := "E", position := "chef",
         phone := none, email := none, Shift := none,
         restaurant_id := "other-tenant" }]
      "l1" "s9" TargetStatus.approved).1
     { id := "l1", staff_id := "s1", restaurant_id := "other-tenant",
       start_date := "2024-01-01", end_date := "2024-01-03",
       status := LeaveStatus.pending, reason := "flu" }
     (by decide) rfl,
   (mutations_filter_by_id_only
      [{ id := "l1", staff_id := "s1", restaurant_id := "other-tenant",
         start_date := "2024-01-01", end_date := "2024-01-03",
         status := LeaveStatus.pending, reason := "flu" }]
      [{ id := "s9", first_name := "Eve", last_name := "E", position := "chef",
         phone := none, email := none, Shift := none,
         restaurant_id := "other-tenant" }]
      "l1" "s9" TargetStatus.approved).2.2.1
     { id := "s9", first_name := "Eve", last_name := "E", position := "chef",
       phone := none, email := none, Shift := none,
       restaurant_id := "other-tenant" }
     (by decide) rfl⟩
